import Mathlib

/-!
# Verification of the filamentenvmonitor ingestion pipeline

Shallow embedding of the core pipeline of the repository: the bounded
intake queue (`enqueue_data_point`), the batch/flush/retry state machine
(`database_writer`), the SQLite-backed durability store
(`persist_batch`, `_prune_old_batches`, `load_and_flush_persisted_batches`),
the storage-adapter factory (`create_database_adapter`), and the thread
controller (`start_thread` / `stop_thread` / `restart_thread`).
Python dicts become Lean lists/structures, wall-clock instants become ℚ,
exceptions become `Option`/`Except`, and randomness (jitter) becomes an
oracle argument constrained by the range the code draws from.
-/

namespace FilamentBox

/-! ## Intake queue (src/filamentbox/database_writer.py, enqueue_data_point)

The Python `queue.Queue(maxsize)` is modelled as a `List α` whose head is
the oldest element.  `maxsize ≤ 0` means unbounded, as in Python. -/

/-- `queue.Queue.put_nowait`: fails (raises `queue.Full`) iff the queue is
bounded and at capacity, otherwise appends at the back. -/
def put_nowait (maxsize : Nat) (q : List α) (x : α) : Option (List α) :=
  if 0 < maxsize ∧ maxsize ≤ q.length then none else some (q ++ [x])

/-- `queue.Queue.get_nowait`: fails (raises `queue.Empty`) iff the queue is
empty, otherwise removes and returns the oldest element. -/
def get_nowait (q : List α) : Option (α × List α) :=
  match q with
  | [] => none
  | x :: rest => some (x, rest)

/-- `enqueue_data_point` from database_writer.py: try to put; on a full
queue drop the oldest element and retry; if the retry also fails the new
point is dropped (logged, never raised).  When the writer is disabled the
point is discarded.  Total: no branch raises to the caller. -/
def enqueue_data_point (enabled : Bool) (maxsize : Nat) (q : List α) (x : α) :
    List α :=
  if !enabled then q
  else
    match put_nowait maxsize q x with
    | some q2 => q2
    | none =>
      match get_nowait q with
      | none => q          -- "full then empty": log and drop the new point
      | some (_, q2) =>
        match put_nowait maxsize q2 x with
        | some q3 => q3
        | none => q2       -- still full: drop the new datapoint

/-- Folding a whole sequence of producer calls into the queue. -/
def enqueueAll (enabled : Bool) (maxsize : Nat) (q : List α) (xs : List α) :
    List α :=
  xs.foldl (enqueue_data_point enabled maxsize) q

theorem enqueue_step (maxsize : Nat) (hN : 0 < maxsize) (q : List α) (x : α)
    (hq : q.length ≤ maxsize) :
    enqueue_data_point true maxsize q x =
      if q.length < maxsize then q ++ [x] else q.drop 1 ++ [x] := by
  unfold enqueue_data_point put_nowait get_nowait
  by_cases h : q.length < maxsize
  · simp [h, Nat.not_le.mpr h]
  · have hlen : q.length = maxsize := le_antisymm hq (Nat.not_lt.mp h)
    have hne : q ≠ [] := by
      intro hnil
      simp [hnil] at hlen
      omega
    obtain ⟨y, rest, rfl⟩ := List.exists_cons_of_ne_nil hne
    have hrest : rest.length + 1 = maxsize := by simpa using hlen
    simp only [Bool.not_true, Bool.false_eq_true, if_false]
    rw [if_pos ⟨hN, hlen.ge⟩]
    have hx : ¬ (0 < maxsize ∧ maxsize ≤ rest.length) := by omega
    have hlt : ¬ (rest.length + 1 < maxsize) := by omega
    simp [hx, hlt]

theorem enqueueAll_eq_drop (maxsize : Nat) (hN : 0 < maxsize) (xs : List α) :
    enqueueAll true maxsize [] xs = xs.drop (xs.length - maxsize) := by
  induction xs using List.reverseRecOn with
  | nil => simp [enqueueAll]
  | append_singleton l x ih =>
    have hlen : (enqueueAll true maxsize ([] : List α) l).length ≤ maxsize := by
      rw [ih]
      simp only [List.length_drop]
      omega
    have hstep : enqueueAll true maxsize ([] : List α) (l ++ [x]) =
        enqueue_data_point true maxsize (enqueueAll true maxsize [] l) x := by
      simp [enqueueAll]
    rw [hstep, enqueue_step maxsize hN _ x hlen, ih]
    by_cases hcase : l.length < maxsize
    · have h1 : l.length - maxsize = 0 := by omega
      have h2 : l.length + 1 - maxsize = 0 := by omega
      simp [h1, h2, hcase]
    · have hge : maxsize ≤ l.length := Nat.not_lt.mp hcase
      have hnotlt : ¬ (l.drop (l.length - maxsize)).length < maxsize := by
        simp only [List.length_drop]
        omega
      rw [if_neg hnotlt, List.drop_drop]
      have h3 : (l ++ [x]).length - maxsize = l.length - maxsize + 1 := by
        simp only [List.length_append, List.length_singleton]
        omega
      rw [h3, List.drop_append_of_le_length (by omega)]

/-- C1: with the writer enabled, a bounded intake queue never holds more
than its capacity `N` items, enqueue is total (never blocks or raises),
the retained items after any producer sequence are exactly the `N` most
recently enqueued ones (drop-oldest law), and on a transiently over-full
queue the oldest element is removed and the new point is dropped without
raising. -/
theorem C1_intake_queue_drop_oldest (N : Nat) (hN : 0 < N) (xs : List α)
    (q : List α) (x : α) (hover : N + 1 ≤ q.length) :
    (enqueueAll true N [] xs).length ≤ N ∧
    enqueueAll true N [] xs = xs.drop (xs.length - N) ∧
    enqueue_data_point true N q x = q.drop 1 := by
  refine ⟨?_, enqueueAll_eq_drop N hN xs, ?_⟩
  · rw [enqueueAll_eq_drop N hN xs]
    simp only [List.length_drop]
    omega
  · have hne : q ≠ [] := by
      intro h
      rw [h] at hover
      simp at hover
    obtain ⟨y, rest, rfl⟩ := List.exists_cons_of_ne_nil hne
    have hr : N ≤ rest.length := by
      simp only [List.length_cons] at hover
      omega
    have hcond : 0 < N ∧ N ≤ (y :: rest).length := by
      simp only [List.length_cons]
      omega
    have hcond2 : 0 < N ∧ N ≤ rest.length := ⟨hN, hr⟩
    unfold enqueue_data_point put_nowait get_nowait
    simp only [Bool.not_true, Bool.false_eq_true, if_false]
    rw [if_pos hcond]
    simp only [if_pos hcond2]
    rfl

/-- Witness for C1 at `N = 2`, producer sequence `[1,2,3]`, over-full
queue `[1,2,3]`. -/
theorem C1_intake_queue_drop_oldest_witness :
    (enqueueAll true 2 ([] : List Nat) [1, 2, 3]).length ≤ 2 ∧
    enqueueAll true 2 ([] : List Nat) [1, 2, 3] = [2, 3] ∧
    enqueue_data_point true 2 [1, 2, 3] 9 = [2, 3] := by
  have h := C1_intake_queue_drop_oldest 2 (by decide) [1, 2, 3] [1, 2, 3] 9
    (by decide)
  exact ⟨h.1, h.2.1.trans (by decide), h.2.2.trans (by decide)⟩

/-! ## Batch writer (src/filamentbox/database_writer.py, database_writer)

The body of the flush attempt (the `if batch:` block of the writer loop)
is embedded as a pure transition on the writer's local state.  The
adapter outcome, the alert handler's behaviour and the random jitter are
oracle inputs; side effects (notifications, `persist_batch` hand-off,
the sleep call) are recorded as events. -/

/-- The kind of sleep primitive invoked.  The code calls `time.sleep`,
which does not observe the stop event; an event-based wait (such as
`stop_event.wait`) would be interruptible. -/
inductive SleepCall where
  | timeSleep (duration : ℚ)
  | stopEventWait (duration : ℚ)
deriving DecidableEq

/-- Whether the sleep primitive wakes up early once the stop event is set. -/
def SleepCall.interruptibleByStop : SleepCall → Bool
  | .timeSleep _ => false
  | .stopEventWait _ => true

/-- Writer configuration (module-level constants of database_writer.py). -/
structure WriterCfg where
  batchSize : Nat
  flushInterval : ℚ
  backoffBase : ℚ
  backoffMax : ℚ
  alertThreshold : Nat
  persistOnAlert : Bool
  dbType : String
  handlerRegistered : Bool
deriving DecidableEq

/-- The writer's local mutable state (batch, last_flush_time,
failure_count, alerted). -/
structure WriterState (α : Type) where
  batch : List α
  last_flush_time : ℚ
  failure_count : Nat
  alerted : Bool
deriving DecidableEq

/-- Observable side effects of one flush attempt. -/
structure FlushEvents (α : Type) where
  wroteBatch : Option (List α)
  restoredNotified : Bool
  errorNotified : Bool
  handlerInvoked : Bool
  handlerExceptionCaught : Bool
  persistedBatch : Option (List α)
  sleepCall : Option SleepCall
deriving DecidableEq

/-- `min(BACKOFF_BASE * 2 ** (failure_count - 1), BACKOFF_MAX)`. -/
def backoffDelay (base maxDelay : ℚ) (n : Nat) : ℚ :=
  min (base * 2 ^ (n - 1)) maxDelay

/-- One flush attempt: the body of the `if batch:` block of
`database_writer`.  `writeOk` tells whether `db_adapter.write_points`
succeeded, `errMsg` is the exception text otherwise, `handlerOk` whether
the registered alert handler returns normally, and `jitter` the value
drawn by `random.uniform(0, backoff * 0.1)`. -/
def flushAttempt (cfg : WriterCfg) (st : WriterState α) (now : ℚ)
    (writeOk : Bool) (errMsg : String) (handlerOk : Bool) (jitter : ℚ) :
    WriterState α × FlushEvents α :=
  if writeOk then
    let was_in_failure_state := st.alerted
    let st' : WriterState α :=
      if st.failure_count ≠ 0 then
        { batch := [], last_flush_time := now, failure_count := 0,
          alerted := false }
      else
        { batch := [], last_flush_time := now,
          failure_count := st.failure_count, alerted := st.alerted }
    (st',
      { wroteBatch := some st.batch,
        restoredNotified := was_in_failure_state,
        errorNotified := false, handlerInvoked := false,
        handlerExceptionCaught := false, persistedBatch := none,
        sleepCall := none })
  else
    let fc := st.failure_count + 1
    let backoff := backoffDelay cfg.backoffBase cfg.backoffMax fc
    if cfg.alertThreshold ≤ fc ∧ st.alerted = false then
      ({ st with failure_count := fc, alerted := true },
        { wroteBatch := none, restoredNotified := false,
          errorNotified := true,
          handlerInvoked := cfg.handlerRegistered,
          handlerExceptionCaught := cfg.handlerRegistered && !handlerOk,
          persistedBatch :=
            if cfg.persistOnAlert = true ∧ cfg.dbType ≠ "none" then
              some st.batch
            else none,
          sleepCall := some (.timeSleep (backoff + jitter)) })
    else
      ({ st with failure_count := fc },
        { wroteBatch := none, restoredNotified := false,
          errorNotified := false, handlerInvoked := false,
          handlerExceptionCaught := false, persistedBatch := none,
          sleepCall := some (.timeSleep (backoff + jitter)) })

/-- Oracle inputs of one failing flush attempt. -/
structure FailInput where
  now : ℚ
  errMsg : String
  handlerOk : Bool
  jitter : ℚ
deriving DecidableEq

/-- A contiguous streak of consecutive flush failures. -/
def failStreak (cfg : WriterCfg) (st : WriterState α) :
    List FailInput → WriterState α × List (FlushEvents α)
  | [] => (st, [])
  | i :: rest =>
    let p := flushAttempt cfg st i.now false i.errMsg i.handlerOk i.jitter
    let q := failStreak cfg p.1 rest
    (q.1, p.2 :: q.2)

/-- Number of alert notifications in a trace. -/
def countAlerts (evs : List (FlushEvents α)) : Nat :=
  evs.countP (·.errorNotified)

/-- Number of durability-store hand-offs in a trace. -/
def countPersists (evs : List (FlushEvents α)) : Nat :=
  evs.countP (·.persistedBatch.isSome)

/-- The failing branch only changes `failure_count` and `alerted`. -/
theorem flushFail_state (cfg : WriterCfg) (st : WriterState α) (now : ℚ)
    (msg : String) (hOk : Bool) (j : ℚ) :
    (flushAttempt cfg st now false msg hOk j).1 =
      if cfg.alertThreshold ≤ st.failure_count + 1 ∧ st.alerted = false then
        { st with failure_count := st.failure_count + 1, alerted := true }
      else
        { st with failure_count := st.failure_count + 1 } := by
  by_cases h : cfg.alertThreshold ≤ st.failure_count + 1 ∧ st.alerted = false
  · simp [flushAttempt, h]
  · simp [flushAttempt, h]

/-- A failing attempt on an already-alerted writer emits no alert and no
persistence hand-off, and keeps `alerted` set. -/
theorem flushFail_alerted_true (cfg : WriterCfg) (st : WriterState α)
    (now : ℚ) (msg : String) (hOk : Bool) (j : ℚ) (h : st.alerted = true) :
    (flushAttempt cfg st now false msg hOk j).1.alerted = true ∧
    (flushAttempt cfg st now false msg hOk j).2.errorNotified = false ∧
    (flushAttempt cfg st now false msg hOk j).2.persistedBatch = none := by
  have hc : ¬ (cfg.alertThreshold ≤ st.failure_count + 1 ∧
      st.alerted = false) := by
    simp [h]
  simp [flushAttempt, hc, h]

/-- C2: a successful flush clears the batch, resets `failure_count` and
`alerted`, records `last_flush_time = now`, and emits the
connection-restored notification exactly when the writer was alerted; a
failed flush increments `failure_count` by one and keeps the batch for
retry.  (The hypothesis is the writer invariant: `alerted` is only ever
set while `failure_count` is nonzero.) -/
theorem C2_flush_success_failure_effects (cfg : WriterCfg)
    (st : WriterState α) (now : ℚ) (msg : String) (hOk : Bool) (j : ℚ)
    (hinv : st.alerted = true → st.failure_count ≠ 0) :
    ((flushAttempt cfg st now true msg hOk j).1.batch = [] ∧
     (flushAttempt cfg st now true msg hOk j).1.failure_count = 0 ∧
     (flushAttempt cfg st now true msg hOk j).1.alerted = false ∧
     (flushAttempt cfg st now true msg hOk j).1.last_flush_time = now ∧
     (flushAttempt cfg st now true msg hOk j).2.restoredNotified =
       st.alerted) ∧
    ((flushAttempt cfg st now false msg hOk j).1.failure_count =
       st.failure_count + 1 ∧
     (flushAttempt cfg st now false msg hOk j).1.batch = st.batch) := by
  constructor
  · by_cases h : st.failure_count = 0
    · have ha : st.alerted = false := by
        cases hb : st.alerted
        · rfl
        · exact absurd h (hinv hb)
      simp [flushAttempt, h, ha]
    · simp [flushAttempt, h]
  · rw [flushFail_state]
    by_cases h : cfg.alertThreshold ≤ st.failure_count + 1 ∧
        st.alerted = false
    · simp [h]
    · simp [h]

/-- Witness for C2: an alerted writer with three accumulated failures
recovers on a successful flush; a failing flush bumps the counter. -/
theorem C2_flush_success_failure_effects_witness :
    ((flushAttempt ⟨10, 60, 2, 300, 5, true, "influxdb", true⟩
        (⟨[1, 2], 0, 3, true⟩ : WriterState Nat) 100 true "e" true 0).1.batch
        = [] ∧
     (flushAttempt ⟨10, 60, 2, 300, 5, true, "influxdb", true⟩
        (⟨[1, 2], 0, 3, true⟩ : WriterState Nat) 100 true "e" true
        0).1.failure_count = 0 ∧
     (flushAttempt ⟨10, 60, 2, 300, 5, true, "influxdb", true⟩
        (⟨[1, 2], 0, 3, true⟩ : WriterState Nat) 100 true "e" true
        0).1.alerted = false ∧
     (flushAttempt ⟨10, 60, 2, 300, 5, true, "influxdb", true⟩
        (⟨[1, 2], 0, 3, true⟩ : WriterState Nat) 100 true "e" true
        0).1.last_flush_time = 100 ∧
     (flushAttempt ⟨10, 60, 2, 300, 5, true, "influxdb", true⟩
        (⟨[1, 2], 0, 3, true⟩ : WriterState Nat) 100 true "e" true
        0).2.restoredNotified = true) ∧
    ((flushAttempt ⟨10, 60, 2, 300, 5, true, "influxdb", true⟩
        (⟨[1, 2], 0, 3, true⟩ : WriterState Nat) 100 false "e" true
        0).1.failure_count = 4 ∧
     (flushAttempt ⟨10, 60, 2, 300, 5, true, "influxdb", true⟩
        (⟨[1, 2], 0, 3, true⟩ : WriterState Nat) 100 false "e" true
        0).1.batch = [1, 2]) :=
  C2_flush_success_failure_effects _ _ 100 "e" true 0 (fun _ => by decide)

/-- Once alerted, a whole streak of consecutive failures emits no further
alert and no further persistence hand-off, and the flag stays set. -/
theorem failStreak_alerted (cfg : WriterCfg) (st : WriterState α)
    (ins : List FailInput) (h : st.alerted = true) :
    countAlerts (failStreak cfg st ins).2 = 0 ∧
    countPersists (failStreak cfg st ins).2 = 0 ∧
    (failStreak cfg st ins).1.alerted = true := by
  induction ins generalizing st with
  | nil => simpa [failStreak, countAlerts, countPersists] using h
  | cons i rest ih =>
    obtain ⟨h1, h2, h3⟩ :=
      flushFail_alerted_true cfg st i.now i.errMsg i.handlerOk i.jitter h
    obtain ⟨a, b, c⟩ := ih _ h1
    refine ⟨?_, ?_, ?_⟩
    · simp only [failStreak, countAlerts, List.countP_cons]
      simp only [countAlerts] at a
      simp [a, h2]
    · simp only [failStreak, countPersists, List.countP_cons]
      simp only [countPersists] at b
      simp [b, h3]
    · simpa [failStreak] using c

/-- Over any contiguous streak of consecutive failures, the alert fires
at most once and the batch is persisted at most once. -/
theorem failStreak_at_most_once (cfg : WriterCfg) (st : WriterState α)
    (ins : List FailInput) :
    countAlerts (failStreak cfg st ins).2 ≤ 1 ∧
    countPersists (failStreak cfg st ins).2 ≤ 1 := by
  induction ins generalizing st with
  | nil => simp [failStreak, countAlerts, countPersists]
  | cons i rest ih =>
    by_cases h : cfg.alertThreshold ≤ st.failure_count + 1 ∧
        st.alerted = false
    · have hst : (flushAttempt cfg st i.now false i.errMsg i.handlerOk
          i.jitter).1.alerted = true := by
        simp [flushAttempt, h]
      obtain ⟨a, b, c⟩ := failStreak_alerted cfg _ rest hst
      constructor
      · simp only [failStreak, countAlerts, List.countP_cons]
        simp only [countAlerts] at a
        simp [a]
        split <;> omega
      · simp only [failStreak, countPersists, List.countP_cons]
        simp only [countPersists] at b
        simp [b]
        split <;> omega
    · have hev : (flushAttempt cfg st i.now false i.errMsg i.handlerOk
          i.jitter).2.errorNotified = false ∧
          (flushAttempt cfg st i.now false i.errMsg i.handlerOk
          i.jitter).2.persistedBatch = none := by
        simp [flushAttempt, h]
      obtain ⟨a, b⟩ := ih ((flushAttempt cfg st i.now false i.errMsg
        i.handlerOk i.jitter).1)
      constructor
      · simp only [failStreak, countAlerts, List.countP_cons]
        simp only [countAlerts] at a
        simp [hev.1, a]
      · simp only [failStreak, countPersists, List.countP_cons]
        simp only [countPersists] at b
        simp [hev.2, b]

/-- C3: within any contiguous streak of consecutive flush failures the
alert fires at most once and the in-memory batch is handed to the
durability store at most once; a persistence hand-off requires
persist-on-alert and a backend other than `"none"`; when the alert fires
the registered handler is invoked and a raising handler is caught
(logged) without affecting the writer state; and once `alerted` is set
neither alert nor persistence recurs within the streak. -/
theorem C3_alert_once_per_failure_streak (cfg : WriterCfg)
    (st : WriterState α) (ins : List FailInput) :
    countAlerts (failStreak cfg st ins).2 ≤ 1 ∧
    countPersists (failStreak cfg st ins).2 ≤ 1 ∧
    (∀ (now : ℚ) (msg : String) (hOk : Bool) (j : ℚ),
      (flushAttempt cfg st now false msg hOk j).2.persistedBatch.isSome =
        true →
      cfg.persistOnAlert = true ∧ cfg.dbType ≠ "none") ∧
    (∀ (now : ℚ) (msg : String) (hOk : Bool) (j : ℚ),
      (flushAttempt cfg st now false msg hOk j).2.errorNotified = true →
      (flushAttempt cfg st now false msg hOk j).2.handlerInvoked =
        cfg.handlerRegistered ∧
      (cfg.handlerRegistered = true → hOk = false →
        (flushAttempt cfg st now false msg hOk j).2.handlerExceptionCaught =
          true)) ∧
    (∀ (now : ℚ) (msg : String) (hOk : Bool) (j : ℚ),
      (flushAttempt cfg st now false msg hOk j).1 =
      (flushAttempt cfg st now false msg true j).1) ∧
    (st.alerted = true →
      countAlerts (failStreak cfg st ins).2 = 0 ∧
      countPersists (failStreak cfg st ins).2 = 0) := by
  obtain ⟨hA, hB⟩ := failStreak_at_most_once cfg st ins
  refine ⟨hA, hB, ?_, ?_, ?_, ?_⟩
  · intro now msg hOk j hp
    by_cases h : cfg.alertThreshold ≤ st.failure_count + 1 ∧
        st.alerted = false
    · by_cases h2 : cfg.persistOnAlert = true ∧ cfg.dbType ≠ "none"
      · exact h2
      · simp [flushAttempt, h, h2] at hp
    · simp [flushAttempt, h] at hp
  · intro now msg hOk j he
    by_cases h : cfg.alertThreshold ≤ st.failure_count + 1 ∧
        st.alerted = false
    · refine ⟨by simp [flushAttempt, h], fun hr hno => ?_⟩
      simp [flushAttempt, h, hr, hno]
    · simp [flushAttempt, h] at he
  · intro now msg hOk j
    rw [flushFail_state, flushFail_state]
  · intro h
    obtain ⟨a, b, _⟩ := failStreak_alerted cfg st ins h
    exact ⟨a, b⟩

/-- Witness for C3: threshold 1 with an unalerted writer alerts and
persists exactly once over a two-failure streak, with a raising handler
caught; an already-alerted writer alerts zero times. -/
theorem C3_alert_once_per_failure_streak_witness :
    countAlerts (failStreak ⟨10, 60, 2, 300, 1, true, "influxdb", true⟩
      (⟨[5], 0, 0, false⟩ : WriterState Nat)
      [⟨0, "e", false, 0⟩, ⟨1, "e", true, 0⟩]).2 ≤ 1 ∧
    ((⟨10, 60, 2, 300, 1, true, "influxdb", true⟩ :
        WriterCfg).persistOnAlert = true ∧
      (⟨10, 60, 2, 300, 1, true, "influxdb", true⟩ :
        WriterCfg).dbType ≠ "none") ∧
    (flushAttempt ⟨10, 60, 2, 300, 1, true, "influxdb", true⟩
      (⟨[5], 0, 0, false⟩ : WriterState Nat) 0 false "e" false
      0).2.handlerExceptionCaught = true ∧
    (flushAttempt ⟨10, 60, 2, 300, 1, true, "influxdb", true⟩
      (⟨[5], 0, 0, false⟩ : WriterState Nat) 0 false "e" false 0).1 =
    (flushAttempt ⟨10, 60, 2, 300, 1, true, "influxdb", true⟩
      (⟨[5], 0, 0, false⟩ : WriterState Nat) 0 false "e" true 0).1 ∧
    countAlerts (failStreak ⟨10, 60, 2, 300, 1, true, "influxdb", true⟩
      (⟨[5], 0, 3, true⟩ : WriterState Nat)
      [⟨0, "e", false, 0⟩, ⟨1, "e", true, 0⟩]).2 = 0 := by
  have h1 := C3_alert_once_per_failure_streak
    ⟨10, 60, 2, 300, 1, true, "influxdb", true⟩
    (⟨[5], 0, 0, false⟩ : WriterState Nat)
    [⟨0, "e", false, 0⟩, ⟨1, "e", true, 0⟩]
  have h2 := C3_alert_once_per_failure_streak
    ⟨10, 60, 2, 300, 1, true, "influxdb", true⟩
    (⟨[5], 0, 3, true⟩ : WriterState Nat)
    [⟨0, "e", false, 0⟩, ⟨1, "e", true, 0⟩]
  refine ⟨h1.1, h1.2.2.1 0 "e" false 0 (by decide),
    (h1.2.2.2.1 0 "e" false 0 (by decide)).2 rfl rfl,
    h1.2.2.2.2.1 0 "e" false 0, (h2.2.2.2.2.2 rfl).1⟩

/-- Both failure branches emit the same `time.sleep` call. -/
theorem flushFail_sleepCall (cfg : WriterCfg) (st : WriterState α)
    (now : ℚ) (msg : String) (hOk : Bool) (j : ℚ) :
    (flushAttempt cfg st now false msg hOk j).2.sleepCall =
      some (SleepCall.timeSleep
        (backoffDelay cfg.backoffBase cfg.backoffMax
          (st.failure_count + 1) + j)) := by
  by_cases h : cfg.alertThreshold ≤ st.failure_count + 1 ∧
      st.alerted = false
  · simp [flushAttempt, h]
  · simp [flushAttempt, h]

/-- C5: after the n-th consecutive failure the writer sleeps
`min(base * 2^(n-1), maxDelay) + jitter` with the jitter drawn from
`[0, 0.1 * delay]`; the clamped delay is monotone non-decreasing in the
failure count, and whenever the exponential term is not clamped the
slept time lies in `[base * 2^(n-1), 1.1 * base * 2^(n-1)]`. -/
theorem C5_backoff_delay_law (cfg : WriterCfg) (st : WriterState α)
    (now : ℚ) (msg : String) (hOk : Bool) (jitter : ℚ)
    (hbase : 0 ≤ cfg.backoffBase) (hj0 : 0 ≤ jitter)
    (hj1 : jitter ≤ backoffDelay cfg.backoffBase cfg.backoffMax
      (st.failure_count + 1) * (1 / 10)) :
    (flushAttempt cfg st now false msg hOk jitter).2.sleepCall =
      some (SleepCall.timeSleep
        (backoffDelay cfg.backoffBase cfg.backoffMax
          (st.failure_count + 1) + jitter)) ∧
    (∀ n : Nat, backoffDelay cfg.backoffBase cfg.backoffMax n ≤
      backoffDelay cfg.backoffBase cfg.backoffMax (n + 1)) ∧
    (cfg.backoffBase * 2 ^ st.failure_count ≤ cfg.backoffMax →
      cfg.backoffBase * 2 ^ st.failure_count ≤
        backoffDelay cfg.backoffBase cfg.backoffMax
          (st.failure_count + 1) + jitter ∧
      backoffDelay cfg.backoffBase cfg.backoffMax
          (st.failure_count + 1) + jitter ≤
        cfg.backoffBase * 2 ^ st.failure_count * (11 / 10)) := by
  refine ⟨flushFail_sleepCall cfg st now msg hOk jitter, ?_, ?_⟩
  · intro n
    unfold backoffDelay
    refine min_le_min ?_ le_rfl
    refine mul_le_mul_of_nonneg_left ?_ hbase
    refine pow_le_pow_right₀ one_le_two ?_
    omega
  · intro hclamp
    have hd : backoffDelay cfg.backoffBase cfg.backoffMax
        (st.failure_count + 1) = cfg.backoffBase * 2 ^ st.failure_count := by
      unfold backoffDelay
      rw [Nat.add_sub_cancel]
      exact min_eq_left hclamp
    rw [hd] at hj1 ⊢
    constructor
    · linarith
    · linarith

/-- Witness for C5 at `base = 2`, `max = 300`, first failure,
`jitter = 1/10`. -/
theorem C5_backoff_delay_law_witness :
    (flushAttempt ⟨10, 60, 2, 300, 5, true, "influxdb", true⟩
      (⟨[5], 0, 0, false⟩ : WriterState Nat) 0 false "e" true
      (1 / 10)).2.sleepCall = some (SleepCall.timeSleep (21 / 10)) ∧
    backoffDelay 2 300 3 ≤ backoffDelay 2 300 4 ∧
    ((2 : ℚ) * 2 ^ 0 ≤ backoffDelay 2 300 1 + 1 / 10 ∧
      backoffDelay 2 300 1 + 1 / 10 ≤ (2 : ℚ) * 2 ^ 0 * (11 / 10)) := by
  have h := C5_backoff_delay_law ⟨10, 60, 2, 300, 5, true, "influxdb", true⟩
    (⟨[5], 0, 0, false⟩ : WriterState Nat) 0 "e" true (1 / 10)
    (by norm_num) (by norm_num) (by norm_num [backoffDelay])
  refine ⟨h.1.trans ?_, h.2.1 3, h.2.2 (by norm_num)⟩
  norm_num [backoffDelay]

/-- C9: the backoff sleep after a failed flush is executed with
`time.sleep`, a primitive that does not observe the stop event; no
failure branch issues a stop-event-aware wait, so once the stop event is
set the writer still remains in the sleep for its full duration. -/
theorem C9_backoff_sleep_not_interruptible (cfg : WriterCfg)
    (st : WriterState α) (now : ℚ) (msg : String) (hOk : Bool) (j : ℚ) :
    ∃ d : ℚ,
      (flushAttempt cfg st now false msg hOk j).2.sleepCall =
        some (SleepCall.timeSleep d) ∧
      SleepCall.interruptibleByStop (SleepCall.timeSleep d) = false := by
  exact ⟨_, flushFail_sleepCall cfg st now msg hOk j, rfl⟩

/-! ## Writer loop (src/filamentbox/database_writer.py, database_writer)

The `while not stop_event.is_set() or not write_queue.empty():` loop,
with the intake queue carried in the state and the per-iteration clock,
adapter outcome, handler behaviour and jitter supplied by a script of
oracle inputs.  The trace records the externally visible actions. -/

/-- Combined loop state: intake queue plus the writer's local state. -/
structure LoopState (α : Type) where
  queue : List α
  batch : List α
  last_flush_time : ℚ
  failure_count : Nat
  alerted : Bool
deriving DecidableEq

/-- Oracle inputs of one loop iteration. -/
structure IterEnv where
  now : ℚ
  writeOk : Bool
  errMsg : String
  handlerOk : Bool
  jitter : ℚ
deriving DecidableEq

/-- Externally visible actions of the writer thread. -/
inductive WriterAction (α : Type) where
  | wrote (b : List α)
  | persisted (b : List α)
  | errorNotify
  | restoredNotify
  | slept (s : SleepCall)
  | closedAdapter
deriving DecidableEq

/-- Flatten the recorded flush events into the action trace. -/
def actionsOfEvents (ev : FlushEvents α) : List (WriterAction α) :=
  (match ev.wroteBatch with
    | some b => [WriterAction.wrote b]
    | none => []) ++
  (if ev.restoredNotified then [WriterAction.restoredNotify] else []) ++
  (if ev.errorNotified then [WriterAction.errorNotify] else []) ++
  (match ev.persistedBatch with
    | some b => [WriterAction.persisted b]
    | none => []) ++
  (match ev.sleepCall with
    | some s => [WriterAction.slept s]
    | none => [])

/-- One iteration of the writer loop body: a 1-second-bounded dequeue
attempt followed by the flush check
`len(batch) >= BATCH_SIZE or now - last_flush_time >= FLUSH_INTERVAL`. -/
def loopIter (cfg : WriterCfg) (st : LoopState α) (env : IterEnv) :
    LoopState α × List (WriterAction α) :=
  let qb : List α × List α :=
    match st.queue with
    | [] => ([], st.batch)
    | x :: rest => (rest, st.batch ++ [x])
  let q := qb.1
  let b := qb.2
  if cfg.batchSize ≤ b.length ∨
      cfg.flushInterval ≤ env.now - st.last_flush_time then
    if b.isEmpty then ({ st with queue := q, batch := b }, [])
    else
      let p := flushAttempt cfg
        ⟨b, st.last_flush_time, st.failure_count, st.alerted⟩
        env.now env.writeOk env.errMsg env.handlerOk env.jitter
      ({ queue := q, batch := p.1.batch,
         last_flush_time := p.1.last_flush_time,
         failure_count := p.1.failure_count, alerted := p.1.alerted },
       actionsOfEvents p.2)
  else ({ st with queue := q, batch := b }, [])

/-- The writer loop with the stop event already set or not: it keeps
iterating while `¬stop ∨ queue ≠ []` for as long as the oracle script
lasts; when the loop condition fails it closes the adapter and exits,
discarding whatever is left in `batch`. -/
def writerRun (cfg : WriterCfg) (stopSet : Bool) (st : LoopState α) :
    List IterEnv → List (WriterAction α) × LoopState α
  | [] =>
    if !stopSet || !st.queue.isEmpty then ([], st)
    else ([WriterAction.closedAdapter], st)
  | env :: rest =>
    if !stopSet || !st.queue.isEmpty then
      let p := loopIter cfg st env
      let q := writerRun cfg stopSet p.1 rest
      (p.2 ++ q.1, q.2)
    else ([WriterAction.closedAdapter], st)

/-- C10: once the stop event is set and the intake queue is empty, the
writer loop exits immediately: the only remaining action is closing the
adapter, so any points still sitting in the in-memory batch (a partial
batch that never met a flush trigger) are discarded without being
written to the adapter or handed to the durability store. -/
theorem C10_partial_batch_discarded_on_exit (cfg : WriterCfg)
    (st : LoopState α) (script : List IterEnv) (hq : st.queue = []) :
    (writerRun cfg true st script).1 = [WriterAction.closedAdapter] ∧
    (∀ b : List α,
      WriterAction.wrote b ∉ (writerRun cfg true st script).1 ∧
      WriterAction.persisted b ∉ (writerRun cfg true st script).1) ∧
    (writerRun cfg true st script).2.batch = st.batch := by
  have hrun : writerRun cfg true st script =
      ([WriterAction.closedAdapter], st) := by
    cases script with
    | nil => simp [writerRun, hq]
    | cons e rest => simp [writerRun, hq]
  rw [hrun]
  refine ⟨rfl, ?_, rfl⟩
  intro b
  constructor
  · simp
  · simp

/-- Witness for C10: a stopped writer with an empty queue and a pending
partial batch `[7]` exits without writing or persisting anything. -/
theorem C10_partial_batch_discarded_on_exit_witness :
    (writerRun ⟨10, 60, 2, 300, 5, true, "influxdb", true⟩ true
      (⟨[], [7], 0, 0, false⟩ : LoopState Nat)
      [⟨0, true, "e", true, 0⟩]).1 = [WriterAction.closedAdapter] ∧
    (WriterAction.wrote [7] ∉
      (writerRun ⟨10, 60, 2, 300, 5, true, "influxdb", true⟩ true
        (⟨[], [7], 0, 0, false⟩ : LoopState Nat)
        [⟨0, true, "e", true, 0⟩]).1 ∧
     WriterAction.persisted [7] ∉
      (writerRun ⟨10, 60, 2, 300, 5, true, "influxdb", true⟩ true
        (⟨[], [7], 0, 0, false⟩ : LoopState Nat)
        [⟨0, true, "e", true, 0⟩]).1) ∧
    (writerRun ⟨10, 60, 2, 300, 5, true, "influxdb", true⟩ true
      (⟨[], [7], 0, 0, false⟩ : LoopState Nat)
      [⟨0, true, "e", true, 0⟩]).2.batch = [7] := by
  have h := C10_partial_batch_discarded_on_exit
    ⟨10, 60, 2, 300, 5, true, "influxdb", true⟩
    (⟨[], [7], 0, 0, false⟩ : LoopState Nat)
    [⟨0, true, "e", true, 0⟩] rfl
  exact ⟨h.1, h.2.1 [7], h.2.2⟩

/-! ## Durability store (src/filamentbox/persistence.py)

The SQLite table `unsent_batches (id AUTOINCREMENT, persisted_at REAL,
batch_json TEXT)` is modelled as a list of rows in insertion order plus
the auto-increment counter.  JSON serialization is an abstract
`encode`/`decode` pair; the adapter is a function returning `none` on
success and the exception text on failure. -/

/-- One row of `unsent_batches`. -/
structure Row (π : Type) where
  id : Nat
  persisted_at : ℚ
  batch_json : π
deriving DecidableEq

/-- The `unsent_batches` table plus its auto-increment counter. -/
structure Store (π : Type) where
  rows : List (Row π)
  nextId : Nat
deriving DecidableEq

/-- A freshly created (empty) persistence database. -/
def emptyStore : Store π := ⟨[], 0⟩

/-- Stable insertion into a list ordered by ascending `persisted_at`. -/
def insertByTime (r : Row π) : List (Row π) → List (Row π)
  | [] => [r]
  | s :: rest =>
    if r.persisted_at ≤ s.persisted_at then r :: s :: rest
    else s :: insertByTime r rest

/-- `SELECT ... ORDER BY persisted_at ASC` (stable sort). -/
def sortByTime : List (Row π) → List (Row π)
  | [] => []
  | r :: rest => insertByTime r (sortByTime rest)

/-- Membership of an id in a list of ids (`WHERE id IN (...)`). -/
def idMem (i : Nat) : List Nat → Bool
  | [] => false
  | j :: rest => i == j || idMem i rest

theorem idMem_iff (i : Nat) (l : List Nat) : idMem i l = true ↔ i ∈ l := by
  induction l with
  | nil => simp [idMem]
  | cons j rest ih =>
    simp only [idMem, Bool.or_eq_true, beq_iff_eq, ih, List.mem_cons]

/-- `_prune_old_batches`: when the row count exceeds the maximum, delete
the oldest rows (by ascending `persisted_at`) down to
`int(MAX_PERSISTED_BATCHES * 0.8)`. -/
def _prune_old_batches (maxBatches : Nat) (st : Store π) : Store π :=
  if st.rows.length ≤ maxBatches then st
  else
    let target := maxBatches * 4 / 5
    let to_remove := st.rows.length - target
    let victims := ((sortByTime st.rows).take to_remove).map (·.id)
    { st with rows := st.rows.filter (fun r => !(idMem r.id victims)) }

/-- `persist_batch`: no-op on an empty batch, otherwise append one row
stamped with the current time and trigger pruning. -/
def persist_batch (encode : List α → π) (maxBatches : Nat) (st : Store π)
    (batch : List α) (now : ℚ) : Store π :=
  match batch with
  | [] => st
  | _ =>
    _prune_old_batches maxBatches
      ⟨st.rows ++ [⟨st.nextId, now, encode batch⟩], st.nextId + 1⟩

/-- A sequence of `persist_batch` calls. -/
def persistSeq (encode : List α → π) (maxBatches : Nat) (st : Store π) :
    List (List α × ℚ) → Store π
  | [] => st
  | p :: rest =>
    persistSeq encode maxBatches
      (persist_batch encode maxBatches st p.1 p.2) rest

/-- The rows that a sequence of nonempty persists appends, in order. -/
def historyRows (encode : List α → π) (startId : Nat) :
    List (List α × ℚ) → List (Row π)
  | [] => []
  | p :: rest => ⟨startId, p.2, encode p.1⟩ :: historyRows encode (startId + 1) rest

/-- Does `pat` occur at the very start of `s`? -/
def startsWith (pat s : List Char) : Bool :=
  match pat, s with
  | [], _ => true
  | _ :: _, [] => false
  | c :: cs, d :: ds => c == d && startsWith cs ds

/-- Python's `in` on strings: does `pat` occur contiguously in `s`? -/
def containsSub (pat : List Char) : List Char → Bool
  | [] => pat.isEmpty
  | c :: rest => startsWith pat (c :: rest) || containsSub pat rest

/-- The database-agnostic HTTP-400 / bad-request / invalid test applied
to the lowercased exception text in `load_and_flush_persisted_batches`. -/
def isPermanentRejection (msg : String) : Bool :=
  let m := msg.toList.map Char.toLower
  containsSub ("400".toList) m || containsSub ("bad request".toList) m ||
    containsSub ("invalid".toList) m

/-- What recovery does with one persisted row. -/
inductive RowFate where
  | success
  | dropFail
  | keepFail
deriving DecidableEq

/-- Per-row outcome of `load_and_flush_persisted_batches`: deserialize
(`dropFail` on malformed JSON), write through the adapter (`success`
deletes the row, a permanent rejection drops it, anything else keeps
it), counting failures in the last two cases. -/
def rowFate (decode : π → Option (List α))
    (adapter : List α → Option String) (r : Row π) : RowFate :=
  match decode r.batch_json with
  | none => .dropFail
  | some batch =>
    match adapter batch with
    | none => .success
    | some msg =>
      if isPermanentRejection msg then .dropFail else .keepFail

/-- Iterate over the fetched rows, returning the deleted ids and the
`(success_count, failure_count)` pair. -/
def flushRows (decode : π → Option (List α))
    (adapter : List α → Option String) :
    List (Row π) → List Nat × Nat × Nat
  | [] => ([], 0, 0)
  | r :: rest =>
    let q := flushRows decode adapter rest
    match rowFate decode adapter r with
    | .success => (r.id :: q.1, q.2.1 + 1, q.2.2)
    | .dropFail => (r.id :: q.1, q.2.1, q.2.2 + 1)
    | .keepFail => (q.1, q.2.1, q.2.2 + 1)

/-- `load_and_flush_persisted_batches`: fetch all rows oldest-first,
process each, delete the successful and permanently rejected ones, and
return `(success_count, failure_count)`. -/
def load_and_flush_persisted_batches (decode : π → Option (List α))
    (adapter : List α → Option String) (st : Store π) :
    Store π × Nat × Nat :=
  let p := flushRows decode adapter (sortByTime st.rows)
  ({ st with rows := st.rows.filter (fun r => !(idMem r.id p.1)) },
    p.2.1, p.2.2)

theorem insertByTime_perm (r : Row π) (l : List (Row π)) :
    (insertByTime r l).Perm (r :: l) := by
  induction l with
  | nil => exact List.Perm.refl _
  | cons s rest ih =>
    unfold insertByTime
    by_cases h : r.persisted_at ≤ s.persisted_at
    · rw [if_pos h]
    · rw [if_neg h]
      exact (ih.cons s).trans (List.Perm.swap r s rest)

theorem sortByTime_perm (l : List (Row π)) : (sortByTime l).Perm l := by
  induction l with
  | nil => exact List.Perm.refl _
  | cons r rest ih =>
    exact (insertByTime_perm r (sortByTime rest)).trans (ih.cons r)

theorem flushRows_spec (decode : π → Option (List α))
    (adapter : List α → Option String) (rows : List (Row π)) :
    (flushRows decode adapter rows).1 =
      (rows.filter (fun r =>
        !(decide (rowFate decode adapter r = .keepFail)))).map (·.id) ∧
    (flushRows decode adapter rows).2.1 =
      rows.countP (fun r => decide (rowFate decode adapter r = .success)) ∧
    (flushRows decode adapter rows).2.2 =
      rows.countP (fun r =>
        !(decide (rowFate decode adapter r = .success))) := by
  induction rows with
  | nil => simp [flushRows]
  | cons r rest ih =>
    obtain ⟨a, b, c⟩ := ih
    cases hf : rowFate decode adapter r <;>
      simp [flushRows, hf, a, b, c, List.countP_cons, List.filter_cons]

theorem row_id_inj (l : List (Row π))
    (h : l.Pairwise (fun a b => a.id ≠ b.id)) (r r' : Row π)
    (hr : r ∈ l) (hr' : r' ∈ l) (hid : r.id = r'.id) : r = r' := by
  induction l with
  | nil => cases hr
  | cons s rest ih =>
    rw [List.pairwise_cons] at h
    rcases List.mem_cons.mp hr with rfl | hr2
    · rcases List.mem_cons.mp hr' with rfl | hr'2
      · rfl
      · exact absurd hid (h.1 r' hr'2)
    · rcases List.mem_cons.mp hr' with rfl | hr'2
      · exact absurd hid.symm (h.1 r hr2)
      · exact ih h.2 hr2 hr'2

theorem load_flush_kept_rows (decode : π → Option (List α))
    (adapter : List α → Option String) (st : Store π)
    (hids : st.rows.Pairwise (fun a b => a.id ≠ b.id)) :
    (load_and_flush_persisted_batches decode adapter st).1.rows =
      st.rows.filter (fun r =>
        decide (rowFate decode adapter r = .keepFail)) := by
  unfold load_and_flush_persisted_batches
  simp only
  apply List.filter_congr
  intro r hr
  have hperm := sortByTime_perm st.rows
  have hmem : r.id ∈ (flushRows decode adapter (sortByTime st.rows)).1 ↔
      rowFate decode adapter r ≠ .keepFail := by
    rw [(flushRows_spec decode adapter (sortByTime st.rows)).1]
    constructor
    · intro hm
      obtain ⟨r', hr'f, hid⟩ := List.mem_map.mp hm
      obtain ⟨hr's, hfate⟩ := List.mem_filter.mp hr'f
      have hr'mem : r' ∈ st.rows := hperm.mem_iff.mp hr's
      have : r' = r := row_id_inj st.rows hids r' r hr'mem hr hid
      subst this
      simpa using hfate
    · intro hne
      refine List.mem_map.mpr ⟨r, List.mem_filter.mpr ⟨?_, ?_⟩, rfl⟩
      · exact hperm.mem_iff.mpr hr
      · simpa using hne
  by_cases hf : rowFate decode adapter r = .keepFail
  · have : ¬ (r.id ∈ (flushRows decode adapter (sortByTime st.rows)).1) := by
      rw [hmem]
      simp [hf]
    have hb : idMem r.id (flushRows decode adapter (sortByTime st.rows)).1 =
        false := by
      rw [← Bool.not_eq_true, idMem_iff]
      exact this
    simp [hb, hf]
  · have : r.id ∈ (flushRows decode adapter (sortByTime st.rows)).1 :=
      hmem.mpr hf
    have hb : idMem r.id (flushRows decode adapter (sortByTime st.rows)).1 =
        true := (idMem_iff _ _).mpr this
    simp [hb, hf]

/-- C4: recovery processes persisted rows oldest-first (ascending
`persisted_at`, via `sortByTime` in the definition); a row is deleted
unless the adapter reported a transient (non-permanent) error, the
returned pair counts exactly the successful writes and everything else
as failures, and a nonempty batch persisted into an empty store and then
recovered against an always-succeeding adapter leaves no row behind with
`success_count = 1` and `failure_count = 0`. -/
theorem C4_recovery_row_fates (decode : π → Option (List α))
    (adapter okAdapter : List α → Option String) (st : Store π)
    (hids : st.rows.Pairwise (fun a b => a.id ≠ b.id))
    (encode : List α → π) (b : List α) (hb : b ≠ []) (now : ℚ)
    (maxB : Nat) (hmax : 1 ≤ maxB) (hrt : decode (encode b) = some b)
    (hok : ∀ bb, okAdapter bb = none) :
    (load_and_flush_persisted_batches decode adapter st).1.rows =
      st.rows.filter (fun r =>
        decide (rowFate decode adapter r = .keepFail)) ∧
    (load_and_flush_persisted_batches decode adapter st).2.1 =
      st.rows.countP (fun r =>
        decide (rowFate decode adapter r = .success)) ∧
    (load_and_flush_persisted_batches decode adapter st).2.2 =
      st.rows.countP (fun r =>
        !(decide (rowFate decode adapter r = .success))) ∧
    (load_and_flush_persisted_batches decode okAdapter
      (persist_batch encode maxB emptyStore b now)).1.rows = [] ∧
    (load_and_flush_persisted_batches decode okAdapter
      (persist_batch encode maxB emptyStore b now)).2.1 = 1 ∧
    (load_and_flush_persisted_batches decode okAdapter
      (persist_batch encode maxB emptyStore b now)).2.2 = 0 := by
  have hcount := (sortByTime_perm st.rows).countP_eq
  have hspec := flushRows_spec decode adapter (sortByTime st.rows)
  have hpb : persist_batch encode maxB emptyStore b now =
      ⟨[⟨0, now, encode b⟩], 1⟩ := by
    obtain ⟨x, bs, rfl⟩ := List.exists_cons_of_ne_nil hb
    unfold persist_batch _prune_old_batches
    simp [emptyStore, hmax]
  have hfate : rowFate decode okAdapter (⟨0, now, encode b⟩ : Row π) =
      .success := by
    simp [rowFate, hrt, hok]
  refine ⟨load_flush_kept_rows decode adapter st hids, ?_, ?_, ?_, ?_, ?_⟩
  · unfold load_and_flush_persisted_batches
    simp only
    rw [hspec.2.1, hcount]
  · unfold load_and_flush_persisted_batches
    simp only
    rw [hspec.2.2, hcount]
  · rw [hpb]
    unfold load_and_flush_persisted_batches sortByTime insertByTime
    simp [flushRows, hfate, idMem]
  · rw [hpb]
    unfold load_and_flush_persisted_batches sortByTime insertByTime
    simp [flushRows, hfate]
  · rw [hpb]
    unfold load_and_flush_persisted_batches sortByTime insertByTime
    simp [flushRows, hfate]

/-- Witness for C4: a three-row store (permanent 400 rejection, transient
failure, success) keeps only the transient row and counts `(1, 2)`; the
batch `[3]` persisted into an empty store and recovered against an
always-succeeding adapter leaves no row and counts `(1, 0)`. -/
theorem C4_recovery_row_fates_witness :
    (load_and_flush_persisted_batches some
      (fun bb => if bb = [1] then some "HTTP 400 bad request"
                 else if bb = [2] then some "connection refused"
                 else none)
      (⟨[⟨0, 0, [1]⟩, ⟨1, 1, [2]⟩, ⟨2, 2, [3]⟩], 3⟩ :
        Store (List Nat))).1.rows = [⟨1, 1, [2]⟩] ∧
    (load_and_flush_persisted_batches some
      (fun bb => if bb = [1] then some "HTTP 400 bad request"
                 else if bb = [2] then some "connection refused"
                 else none)
      (⟨[⟨0, 0, [1]⟩, ⟨1, 1, [2]⟩, ⟨2, 2, [3]⟩], 3⟩ :
        Store (List Nat))).2.1 = 1 ∧
    (load_and_flush_persisted_batches some
      (fun bb => if bb = [1] then some "HTTP 400 bad request"
                 else if bb = [2] then some "connection refused"
                 else none)
      (⟨[⟨0, 0, [1]⟩, ⟨1, 1, [2]⟩, ⟨2, 2, [3]⟩], 3⟩ :
        Store (List Nat))).2.2 = 2 ∧
    (load_and_flush_persisted_batches some
      (fun _ : List Nat => (none : Option String))
      (persist_batch (fun b => b) 5 emptyStore [3] 7)).1.rows = [] ∧
    (load_and_flush_persisted_batches some
      (fun _ : List Nat => (none : Option String))
      (persist_batch (fun b => b) 5 emptyStore [3] 7)).2.1 = 1 ∧
    (load_and_flush_persisted_batches some
      (fun _ : List Nat => (none : Option String))
      (persist_batch (fun b => b) 5 emptyStore [3] 7)).2.2 = 0 := by
  have h := C4_recovery_row_fates some
    (fun bb => if bb = [1] then some "HTTP 400 bad request"
               else if bb = [2] then some "connection refused"
               else none)
    (fun _ : List Nat => (none : Option String))
    (⟨[⟨0, 0, [1]⟩, ⟨1, 1, [2]⟩, ⟨2, 2, [3]⟩], 3⟩ : Store (List Nat))
    (by decide) (fun b => b) [3] (by decide) 7 5 (by decide) rfl
    (fun _ => rfl)
  exact ⟨h.1.trans (by decide), h.2.1.trans (by decide),
    h.2.2.1.trans (by decide), h.2.2.2.1, h.2.2.2.2.1, h.2.2.2.2.2⟩

theorem persist_batch_nil (encode : List α → π) (maxB : Nat) (st : Store π)
    (t : ℚ) : persist_batch encode maxB st [] t = st := rfl

theorem persist_batch_cons (encode : List α → π) (maxB : Nat) (st : Store π)
    (x : α) (bs : List α) (t : ℚ) :
    persist_batch encode maxB st (x :: bs) t =
      _prune_old_batches maxB
        ⟨st.rows ++ [⟨st.nextId, t, encode (x :: bs)⟩], st.nextId + 1⟩ := rfl

theorem prune_nextId (maxB : Nat) (st : Store π) :
    (_prune_old_batches maxB st).nextId = st.nextId := by
  unfold _prune_old_batches
  split
  · rfl
  · rfl

theorem sortByTime_sorted_id (l : List (Row π))
    (h : l.Pairwise (fun a b => a.persisted_at ≤ b.persisted_at)) :
    sortByTime l = l := by
  induction l with
  | nil => rfl
  | cons r rest ih =>
    rw [List.pairwise_cons] at h
    simp only [sortByTime]
    rw [ih h.2]
    cases rest with
    | nil => rfl
    | cons s rest2 =>
      simp only [insertByTime]
      rw [if_pos (h.1 s (List.mem_cons_self s rest2))]

theorem suffix_append_right {l₁ l₂ t : List β} (h : l₁ <:+ l₂) :
    l₁ ++ t <:+ l₂ ++ t := by
  obtain ⟨s, rfl⟩ := h
  exact ⟨s, (List.append_assoc s l₁ t).symm⟩

theorem filter_take_ids_eq_drop (l : List (Row π)) (k : Nat)
    (hid : l.Pairwise (fun a b => a.id ≠ b.id)) :
    l.filter (fun r => !(idMem r.id ((l.take k).map (·.id)))) =
      l.drop k := by
  have hsplit := List.take_append_drop k l
  have hpair : (l.take k ++ l.drop k).Pairwise
      (fun a b => a.id ≠ b.id) := by
    rw [hsplit]
    exact hid
  have hcross := (List.pairwise_append.mp hpair).2.2
  have h1 : (l.take k).filter
      (fun r => !(idMem r.id ((l.take k).map (·.id)))) = [] := by
    rw [List.filter_eq_nil_iff]
    intro r hr
    have hm : r.id ∈ (l.take k).map (·.id) := List.mem_map.mpr ⟨r, hr, rfl⟩
    have ht : idMem r.id ((l.take k).map (·.id)) = true :=
      (idMem_iff _ _).mpr hm
    simp only [ht, Bool.not_true, Bool.false_eq_true, not_false_eq_true]
  have h2 : (l.drop k).filter
      (fun r => !(idMem r.id ((l.take k).map (·.id)))) = l.drop k := by
    rw [List.filter_eq_self]
    intro r hr
    have hnot : r.id ∉ (l.take k).map (·.id) := by
      intro hmem
      obtain ⟨s, hs, hsid⟩ := List.mem_map.mp hmem
      exact hcross s hs r hr hsid
    have hb : idMem r.id ((l.take k).map (·.id)) = false := by
      rw [← Bool.not_eq_true, idMem_iff]
      exact hnot
    simp only [hb, Bool.not_false]
  calc l.filter (fun r => !(idMem r.id ((l.take k).map (·.id))))
      = (l.take k ++ l.drop k).filter
          (fun r => !(idMem r.id ((l.take k).map (·.id)))) := by
        rw [hsplit]
    _ = l.drop k := by rw [List.filter_append, h1, h2, List.nil_append]

/-- `_prune_old_batches` on a store whose rows are already in ascending
`persisted_at` order with distinct ids: keep everything while within the
limit, otherwise drop the oldest rows down to `int(0.8 * maxBatches)`. -/
theorem prune_rows_eq (maxB : Nat) (st : Store π)
    (hsort : st.rows.Pairwise (fun a b => a.persisted_at ≤ b.persisted_at))
    (hid : st.rows.Pairwise (fun a b => a.id ≠ b.id)) :
    (_prune_old_batches maxB st).rows =
      if st.rows.length ≤ maxB then st.rows
      else st.rows.drop (st.rows.length - maxB * 4 / 5) := by
  unfold _prune_old_batches
  by_cases h : st.rows.length ≤ maxB
  · simp [h]
  · simp only [h, if_false]
    rw [sortByTime_sorted_id _ hsort]
    exact filter_take_ids_eq_drop st.rows _ hid

/-- Invariant of the persistence store as used by the program: rows in
ascending `persisted_at` order, distinct ids below the counter, and at
most `maxBatches` rows. -/
def GoodStore (maxB : Nat) (st : Store π) : Prop :=
  st.rows.Pairwise (fun a b => a.persisted_at ≤ b.persisted_at) ∧
  st.rows.Pairwise (fun a b => a.id ≠ b.id) ∧
  st.rows.length ≤ maxB ∧
  (∀ r ∈ st.rows, r.id < st.nextId)

theorem persist_step_good (encode : List α → π) (maxB : Nat)
    (st : Store π) (b : List α) (hb : b ≠ []) (t : ℚ)
    (hgood : GoodStore maxB st)
    (hfresh : ∀ r ∈ st.rows, r.persisted_at < t) :
    GoodStore maxB (persist_batch encode maxB st b t) ∧
    (persist_batch encode maxB st b t).rows <:+
      st.rows ++ [⟨st.nextId, t, encode b⟩] ∧
    (persist_batch encode maxB st b t).nextId = st.nextId + 1 := by
  obtain ⟨x, bs, rfl⟩ := List.exists_cons_of_ne_nil hb
  rw [persist_batch_cons]
  obtain ⟨hsort, hid, hlen, hidlt⟩ := hgood
  set newRow : Row π := ⟨st.nextId, t, encode (x :: bs)⟩ with hnew
  have hsort1 : (st.rows ++ [newRow]).Pairwise
      (fun a b => a.persisted_at ≤ b.persisted_at) := by
    rw [List.pairwise_append]
    refine ⟨hsort, List.pairwise_singleton _ _, ?_⟩
    intro a ha b hbmem
    rw [List.mem_singleton] at hbmem
    subst hbmem
    exact (hfresh a ha).le
  have hid1 : (st.rows ++ [newRow]).Pairwise (fun a b => a.id ≠ b.id) := by
    rw [List.pairwise_append]
    refine ⟨hid, List.pairwise_singleton _ _, ?_⟩
    intro a ha b hbmem
    rw [List.mem_singleton] at hbmem
    subst hbmem
    exact Nat.ne_of_lt (hidlt a ha)
  have hrows := prune_rows_eq maxB
    ⟨st.rows ++ [newRow], st.nextId + 1⟩ hsort1 hid1
  have hnext := prune_nextId maxB
    (⟨st.rows ++ [newRow], st.nextId + 1⟩ : Store π)
  by_cases hc : (st.rows ++ [newRow]).length ≤ maxB
  · rw [if_pos hc] at hrows
    refine ⟨⟨?_, ?_, ?_, ?_⟩, ?_, hnext⟩
    · rw [hrows]
      exact hsort1
    · rw [hrows]
      exact hid1
    · rw [hrows]
      exact hc
    · intro r hr
      rw [hrows] at hr
      rw [hnext]
      rcases List.mem_append.mp hr with h | h
      · exact Nat.lt_succ_of_lt (hidlt r h)
      · rw [List.mem_singleton] at h
        subst h
        exact Nat.lt_succ_self _
    · rw [hrows]
  · rw [if_neg hc] at hrows
    have hsub : (_prune_old_batches maxB
        (⟨st.rows ++ [newRow], st.nextId + 1⟩ : Store π)).rows.Sublist
        (st.rows ++ [newRow]) := by
      rw [hrows]
      exact List.drop_sublist _ _
    refine ⟨⟨hsort1.sublist hsub, hid1.sublist hsub, ?_, ?_⟩, ?_, hnext⟩
    · rw [hrows, List.length_drop]
      have : maxB * 4 / 5 ≤ maxB := by omega
      omega
    · intro r hr
      rw [hnext]
      have hr2 := hsub.mem hr
      rcases List.mem_append.mp hr2 with h | h
      · exact Nat.lt_succ_of_lt (hidlt r h)
      · rw [List.mem_singleton] at h
        subst h
        exact Nat.lt_succ_self _
    · rw [hrows]
      exact List.drop_suffix _ _

theorem persistSeq_good (encode : List α → π) (maxB : Nat)
    (inputs : List (List α × ℚ)) (st : Store π)
    (hne : ∀ p ∈ inputs, p.1 ≠ [])
    (hsortin : inputs.Pairwise (fun a b => a.2 < b.2))
    (hgood : GoodStore maxB st)
    (hfresh : ∀ r ∈ st.rows, ∀ p ∈ inputs, r.persisted_at < p.2) :
    GoodStore maxB (persistSeq encode maxB st inputs) ∧
    (persistSeq encode maxB st inputs).rows <:+
      st.rows ++ historyRows encode st.nextId inputs := by
  induction inputs generalizing st with
  | nil =>
    refine ⟨hgood, ?_⟩
    simp [persistSeq, historyRows]
  | cons p rest ih =>
    obtain ⟨h1, hsfx1, hnext⟩ := persist_step_good encode maxB st p.1
      (hne p (List.mem_cons_self p rest)) p.2 hgood
      (fun r hr => hfresh r hr p (List.mem_cons_self p rest))
    rw [List.pairwise_cons] at hsortin
    have hfresh1 : ∀ r ∈ (persist_batch encode maxB st p.1 p.2).rows,
        ∀ q ∈ rest, r.persisted_at < q.2 := by
      intro r hr q hq
      have hmm := hsfx1.sublist.mem hr
      rcases List.mem_append.mp hmm with hold | hnew
      · exact hfresh r hold q (List.mem_cons_of_mem p hq)
      · rw [List.mem_singleton] at hnew
        subst hnew
        exact hsortin.1 q hq
    obtain ⟨hg2, hsfx2⟩ := ih (persist_batch encode maxB st p.1 p.2)
      (fun q hq => hne q (List.mem_cons_of_mem p hq)) hsortin.2 h1 hfresh1
    have hstep : persistSeq encode maxB st (p :: rest) =
        persistSeq encode maxB (persist_batch encode maxB st p.1 p.2)
          rest := rfl
    refine ⟨by rw [hstep]; exact hg2, ?_⟩
    rw [hstep]
    have heq : st.rows ++ historyRows encode st.nextId (p :: rest) =
        (st.rows ++ [⟨st.nextId, p.2, encode p.1⟩]) ++
          historyRows encode (st.nextId + 1) rest := by
      simp only [historyRows]
      rw [List.append_cons]
    rw [heq]
    rw [hnext] at hsfx2
    exact hsfx2.trans (suffix_append_right hsfx1)

/-- Counterexample to C6 as stated: with `maxBatches = 10`, persisting
`maxBatches + 2 = 12` singleton batches (strictly increasing times)
leaves 9 rows, which exceeds `ceil(0.8 * maxBatches) = 8`: the prune
only fires on the insert that pushes the count past the maximum, and
subsequent inserts grow the store again without pruning. -/
theorem C6_prune_bound_counterexample :
    ⌈(0.8 : ℚ) * 10⌉ = 8 ∧
    (persistSeq (fun b : List Nat => b) 10 emptyStore
      [([1], 0), ([2], 1), ([3], 2), ([4], 3), ([5], 4), ([6], 5),
       ([7], 6), ([8], 7), ([9], 8), ([10], 9), ([11], 10),
       ([12], 11)]).rows.length = 9 ∧
    ¬ ((persistSeq (fun b : List Nat => b) 10 emptyStore
      [([1], 0), ([2], 1), ([3], 2), ([4], 3), ([5], 4), ([6], 5),
       ([7], 6), ([8], 7), ([9], 8), ([10], 9), ([11], 10),
       ([12], 11)]).rows.length ≤ 8) :=
  ⟨by norm_num, by decide, by decide⟩

/-- C6 (amended): `persist_batch` is a no-op on an empty batch and
otherwise appends exactly one row and then prunes; pruning, when the row
count exceeds `maxBatches`, bulk-deletes the oldest rows by ascending
`persisted_at` down to `int(0.8 * maxBatches)` rows — a value not above
`ceil(0.8 * maxBatches)` — so the sub-maximum bound holds immediately
after a prune fires, while across an arbitrary sequence of persists only
`maxBatches` bounds the store; the retained rows are always the most
recently persisted ones (a suffix of the insertion history). -/
theorem C6_persist_prune_amended (encode : List α → π) (maxB : Nat)
    (inputs : List (List α × ℚ))
    (hne : ∀ p ∈ inputs, p.1 ≠ [])
    (hsortin : inputs.Pairwise (fun a b => a.2 < b.2)) :
    (∀ (st : Store π) (now : ℚ), persist_batch encode maxB st [] now = st) ∧
    (∀ (st : Store π) (x : α) (bs : List α) (now : ℚ),
      persist_batch encode maxB st (x :: bs) now =
        _prune_old_batches maxB
          ⟨st.rows ++ [⟨st.nextId, now, encode (x :: bs)⟩],
            st.nextId + 1⟩) ∧
    (∀ st : Store π,
      st.rows.Pairwise (fun a b => a.persisted_at ≤ b.persisted_at) →
      st.rows.Pairwise (fun a b => a.id ≠ b.id) →
      maxB < st.rows.length →
      (_prune_old_batches maxB st).rows =
        st.rows.drop (st.rows.length - maxB * 4 / 5) ∧
      (_prune_old_batches maxB st).rows.length = maxB * 4 / 5) ∧
    ((maxB * 4 / 5 : ℤ) ≤ ⌈(4 : ℚ) * maxB / 5⌉) ∧
    (persistSeq encode maxB emptyStore inputs).rows.length ≤ maxB ∧
    (persistSeq encode maxB emptyStore inputs).rows <:+
      historyRows encode 0 inputs := by
  have hgood0 : GoodStore maxB (emptyStore : Store π) :=
    ⟨List.Pairwise.nil, List.Pairwise.nil, by simp [emptyStore],
      by simp [emptyStore]⟩
  obtain ⟨hg, hsfx⟩ := persistSeq_good encode maxB inputs emptyStore hne
    hsortin hgood0 (by simp [emptyStore])
  refine ⟨fun st now => persist_batch_nil encode maxB st now,
    fun st x bs now => persist_batch_cons encode maxB st x bs now,
    ?_, ?_, hg.2.2.1, ?_⟩
  · intro st hsort hid hover
    have hrows := prune_rows_eq maxB st hsort hid
    rw [if_neg (by omega)] at hrows
    refine ⟨hrows, ?_⟩
    rw [hrows, List.length_drop]
    have : maxB * 4 / 5 ≤ maxB := by omega
    omega
  · have h0 := Nat.div_mul_le_self (maxB * 4) 5
    have h0q : ((maxB * 4 / 5 : Nat) : ℚ) * 5 ≤ (maxB : ℚ) * 4 := by
      exact_mod_cast h0
    have h1 : ((maxB * 4 / 5 : Nat) : ℚ) ≤ (4 : ℚ) * maxB / 5 := by
      linarith
    rw [← @Int.cast_le ℚ]
    exact h1.trans (Int.le_ceil _)
  · simpa [emptyStore] using hsfx

/-- Witness for the amended C6 at `maxBatches = 2` with three singleton
batches: the empty persist is a no-op, the overfull three-row store
prunes down to its single newest row (1 = int(0.8*2) ≤ ceil(0.8*2)),
and the persisted sequence keeps at most two rows, a suffix of the
insertion history. -/
theorem C6_persist_prune_amended_witness :
    persist_batch (fun b : List Nat => b) 2 (⟨[], 5⟩ : Store (List Nat))
      [] 3 = (⟨[], 5⟩ : Store (List Nat)) ∧
    (_prune_old_batches 2
      (⟨[⟨0, 0, [1]⟩, ⟨1, 1, [2]⟩, ⟨2, 2, [3]⟩], 3⟩ :
        Store (List Nat))).rows = [⟨2, 2, [3]⟩] ∧
    ((2 * 4 / 5 : ℤ) ≤ ⌈(4 : ℚ) * 2 / 5⌉) ∧
    (persistSeq (fun b : List Nat => b) 2 emptyStore
      [([1], 0), ([2], 1), ([3], 2)]).rows.length ≤ 2 ∧
    (persistSeq (fun b : List Nat => b) 2 emptyStore
      [([1], 0), ([2], 1), ([3], 2)]).rows <:+
      historyRows (fun b : List Nat => b) 0
        [([1], 0), ([2], 1), ([3], 2)] := by
  have h := C6_persist_prune_amended (fun b : List Nat => b) 2
    [([1], 0), ([2], 1), ([3], 2)] (by decide) (by decide)
  have hpr := h.2.2.1
    (⟨[⟨0, 0, [1]⟩, ⟨1, 1, [2]⟩, ⟨2, 2, [3]⟩], 3⟩ : Store (List Nat))
    (by decide) (by decide) (by decide)
  exact ⟨h.1 (⟨[], 5⟩ : Store (List Nat)) 3, hpr.1.trans (by decide),
    by exact_mod_cast h.2.2.2.1, h.2.2.2.2.1, h.2.2.2.2.2⟩

/-! ## Adapter factory (src/filamentbox/databases/factory.py) and the
none adapter (src/filamentbox/databases/none_adapter.py)

Adapter construction is modelled up to the chosen concrete class; the
`config` dict is represented by the InfluxDB `version` selector, the
only key the factory itself reads. -/

/-- The concrete adapter classes the factory can instantiate. -/
inductive TimeSeriesDB where
  | noneAdapter
  | influxdb1
  | influxdb2
  | influxdb3
  | prometheus
  | timescaledb
  | victoriametrics
deriving DecidableEq

/-- Python's `str.lower()` on the ASCII range. -/
def pyLower (s : String) : String := ⟨s.toList.map Char.toLower⟩

/-- `create_database_adapter`: lowercase the type string, accept
`"none"`/`"disabled"` as the no-op adapter, dispatch InfluxDB on the
`version` config key, and raise `ValueError` (modelled as `.error`) for
anything else. -/
def create_database_adapter (db_type : String) (version : String) :
    Except String TimeSeriesDB :=
  let t := pyLower db_type
  if t = "none" ∨ t = "disabled" then .ok .noneAdapter
  else if t = "influxdb" then
    if version = "1" then .ok .influxdb1
    else if version = "2" then .ok .influxdb2
    else if version = "3" then .ok .influxdb3
    else .error ("Unknown InfluxDB version: " ++ version ++
      ". Supported versions: 1, 2, 3")
  else if t = "prometheus" then .ok .prometheus
  else if t = "timescaledb" then .ok .timescaledb
  else if t = "victoriametrics" then .ok .victoriametrics
  else .error ("Unknown database type: " ++ t ++
    ". Supported types: influxdb, prometheus, timescaledb, victoriametrics, none")

/-- `NoneAdapter.write_points`: discards the points, never fails. -/
def NoneAdapter_write_points (points : List α) : Except String Unit :=
  Except.ok ()

/-- `NoneAdapter.test_connection`: always `True`. -/
def NoneAdapter_test_connection : Bool := true

/-- Counterexample to C7 as stated: the backend-type string
`"disabled"` lies outside the supported set named by the claim, yet the
factory does not raise — it returns the no-op adapter. -/
theorem C7_factory_counterexample :
    "disabled" ∉
      ["influxdb", "prometheus", "timescaledb", "victoriametrics",
        "none"] ∧
    create_database_adapter "disabled" "2" =
      Except.ok TimeSeriesDB.noneAdapter := by
  constructor
  · decide
  · rfl

/-- C7 (amended): after ASCII lowercasing, every backend-type string
outside `{influxdb, prometheus, timescaledb, victoriametrics, none,
disabled}` makes the factory raise an unknown-database-type error;
`"none"` resolves to the no-op adapter whose `write_points` always
succeeds while discarding the data and whose `test_connection` is
always true. -/
theorem C7_factory_unknown_and_none (s version : String)
    (hs : pyLower s ∉
      ["influxdb", "prometheus", "timescaledb", "victoriametrics",
        "none", "disabled"]) :
    (∃ msg, create_database_adapter s version = Except.error msg) ∧
    create_database_adapter "none" version =
      Except.ok TimeSeriesDB.noneAdapter ∧
    (∀ points : List α, NoneAdapter_write_points points =
      Except.ok ()) ∧
    NoneAdapter_test_connection = true := by
  simp only [List.mem_cons, List.mem_singleton, List.not_mem_nil,
    or_false, not_or] at hs
  obtain ⟨h1, h2, h3, h4, h5, h6⟩ := hs
  refine ⟨?_, ?_, fun points => rfl, rfl⟩
  · unfold create_database_adapter
    rw [if_neg (by exact not_or.mpr ⟨h5, h6⟩), if_neg h1, if_neg h2,
      if_neg h3, if_neg h4]
    exact ⟨_, rfl⟩
  · rfl

/-- Witness for C7 at the unknown backend type `"foo"`. -/
theorem C7_factory_unknown_and_none_witness :
    (∃ msg, create_database_adapter "foo" "2" = Except.error msg) ∧
    create_database_adapter "none" "2" =
      Except.ok TimeSeriesDB.noneAdapter ∧
    NoneAdapter_write_points ([3] : List Nat) = Except.ok () ∧
    NoneAdapter_test_connection = true := by
  have h := C7_factory_unknown_and_none (α := Nat) "foo" "2" (by decide)
  exact ⟨h.1, h.2.1, h.2.2.1 [3], h.2.2.2⟩

/-! ## Thread control (src/filamentbox/thread_control.py)

The registries are association lists; a registered thread is its
`is_alive()` value (`some b`) or `None` in the dict (`none`); a
registered callback is `true` when it returns normally and `false` when
it raises (the call site catches the exception and converts it to a
`(False, message)` result). -/

/-- Association-list lookup (Python `dict` access / `in` test). -/
def lookupKV (l : List (String × β)) (k : String) : Option β :=
  match l with
  | [] => none
  | p :: rest => if p.1 = k then some p.2 else lookupKV rest k

/-- The module-level registries of thread_control.py. -/
structure ThreadRegistry where
  threads : List (String × Option Bool)
  restart_callbacks : List (String × Bool)
  start_callbacks : List (String × Bool)
  stop_callbacks : List (String × Bool)
deriving DecidableEq

/-- `start_thread`: unknown name, missing start callback, and
already-running checks, then the callback with its exception caught. -/
def start_thread (o : ThreadRegistry) (name : String) : Bool × String :=
  match lookupKV o.threads name with
  | none => (false, "Unknown thread: " ++ name)
  | some thread =>
    match lookupKV o.start_callbacks name with
    | none =>
      (false, "Thread '" ++ name ++
        "' does not have a start callback registered")
    | some cb =>
      if thread = some true then
        (false, "Thread '" ++ name ++ "' is already running")
      else if cb then
        (true, "Thread '" ++ name ++ "' started successfully")
      else (false, "Failed to start thread '" ++ name ++ "'")

/-- `stop_thread`: unknown name, missing stop callback, and not-running
checks, then the callback with its exception caught. -/
def stop_thread (o : ThreadRegistry) (name : String) : Bool × String :=
  match lookupKV o.threads name with
  | none => (false, "Unknown thread: " ++ name)
  | some thread =>
    match lookupKV o.stop_callbacks name with
    | none =>
      (false, "Thread '" ++ name ++
        "' does not have a stop callback registered")
    | some cb =>
      if thread = none ∨ thread = some false then
        (false, "Thread '" ++ name ++ "' is not running")
      else if cb then
        (true, "Thread '" ++ name ++ "' stopped successfully")
      else (false, "Failed to stop thread '" ++ name ++ "'")

/-- `restart_thread`: unknown name and missing restart callback checks
(a still-running thread is only logged), then the callback with its
exception caught. -/
def restart_thread (o : ThreadRegistry) (name : String) : Bool × String :=
  match lookupKV o.threads name with
  | none => (false, "Unknown thread: " ++ name)
  | some _ =>
    match lookupKV o.restart_callbacks name with
    | none =>
      (false, "Thread '" ++ name ++
        "' does not have a restart callback registered")
    | some cb =>
      if cb then (true, "Thread '" ++ name ++ "' restarted successfully")
      else (false, "Failed to restart thread '" ++ name ++ "'")

/-- C8: the control operations are total functions into
`(success, message)` pairs — no branch raises — and return
`success = false` on an unknown worker name, on `start` of a running
worker, on `stop` of a non-running worker, on `restart` without a
registered restart callback, and whenever the invoked callback raises
(the exception is caught and converted to a result). -/
theorem C8_thread_control_never_raises (o : ThreadRegistry)
    (name : String) :
    (lookupKV o.threads name = none →
      (start_thread o name).1 = false ∧
      (stop_thread o name).1 = false ∧
      (restart_thread o name).1 = false) ∧
    (∀ th, lookupKV o.threads name = some th → th = some true →
      (start_thread o name).1 = false) ∧
    (∀ th, lookupKV o.threads name = some th →
      th = none ∨ th = some false →
      (stop_thread o name).1 = false) ∧
    (lookupKV o.restart_callbacks name = none →
      (restart_thread o name).1 = false) ∧
    (∀ th, lookupKV o.threads name = some th → th ≠ some true →
      lookupKV o.start_callbacks name = some false →
      (start_thread o name).1 = false) ∧
    (∀ th, lookupKV o.threads name = some th → th = some true →
      lookupKV o.stop_callbacks name = some false →
      (stop_thread o name).1 = false) ∧
    (∀ th, lookupKV o.threads name = some th →
      lookupKV o.restart_callbacks name = some false →
      (restart_thread o name).1 = false) := by
  refine ⟨?_, ?_, ?_, ?_, ?_, ?_, ?_⟩
  · intro h
    exact ⟨by simp [start_thread, h], by simp [stop_thread, h],
      by simp [restart_thread, h]⟩
  · intro th h hrun
    cases hcb : lookupKV o.start_callbacks name with
    | none => simp [start_thread, h, hcb]
    | some cb => simp [start_thread, h, hcb, hrun]
  · intro th h hnr
    cases hcb : lookupKV o.stop_callbacks name with
    | none => simp [stop_thread, h, hcb]
    | some cb => simp [stop_thread, h, hcb, hnr]
  · intro hcb
    cases h : lookupKV o.threads name with
    | none => simp [restart_thread, h]
    | some th => simp [restart_thread, h, hcb]
  · intro th h hnrun hcb
    simp [start_thread, h, hcb, hnrun]
  · intro th h hrun hcb
    have : ¬ (th = none ∨ th = some false) := by
      subst hrun
      simp
    simp [stop_thread, h, hcb, this]
  · intro th h hcb
    simp [restart_thread, h, hcb]

/-- Witness for C8 on a registry with an alive `data_collector` (stop
callback raises), a dead `database_writer` (start and restart callbacks
raise), and no thread entry for `"nope"`. -/
theorem C8_thread_control_never_raises_witness :
    ((start_thread ⟨[("data_collector", some true),
        ("database_writer", some false)],
        [("database_writer", false)],
        [("data_collector", true), ("database_writer", false)],
        [("data_collector", false), ("database_writer", true)]⟩
        "nope").1 = false ∧
      (stop_thread ⟨[("data_collector", some true),
        ("database_writer", some false)],
        [("database_writer", false)],
        [("data_collector", true), ("database_writer", false)],
        [("data_collector", false), ("database_writer", true)]⟩
        "nope").1 = false ∧
      (restart_thread ⟨[("data_collector", some true),
        ("database_writer", some false)],
        [("database_writer", false)],
        [("data_collector", true), ("database_writer", false)],
        [("data_collector", false), ("database_writer", true)]⟩
        "nope").1 = false) ∧
    (start_thread ⟨[("data_collector", some true),
        ("database_writer", some false)],
        [("database_writer", false)],
        [("data_collector", true), ("database_writer", false)],
        [("data_collector", false), ("database_writer", true)]⟩
        "data_collector").1 = false ∧
    (stop_thread ⟨[("data_collector", some true),
        ("database_writer", some false)],
        [("database_writer", false)],
        [("data_collector", true), ("database_writer", false)],
        [("data_collector", false), ("database_writer", true)]⟩
        "database_writer").1 = false ∧
    (restart_thread ⟨[("data_collector", some true),
        ("database_writer", some false)],
        [("database_writer", false)],
        [("data_collector", true), ("database_writer", false)],
        [("data_collector", false), ("database_writer", true)]⟩
        "data_collector").1 = false ∧
    (start_thread ⟨[("data_collector", some true),
        ("database_writer", some false)],
        [("database_writer", false)],
        [("data_collector", true), ("database_writer", false)],
        [("data_collector", false), ("database_writer", true)]⟩
        "database_writer").1 = false ∧
    (stop_thread ⟨[("data_collector", some true),
        ("database_writer", some false)],
        [("database_writer", false)],
        [("data_collector", true), ("database_writer", false)],
        [("data_collector", false), ("database_writer", true)]⟩
        "data_collector").1 = false ∧
    (restart_thread ⟨[("data_collector", some true),
        ("database_writer", some false)],
        [("database_writer", false)],
        [("data_collector", true), ("database_writer", false)],
        [("data_collector", false), ("database_writer", true)]⟩
        "database_writer").1 = false := by
  have h := C8_thread_control_never_raises
    ⟨[("data_collector", some true), ("database_writer", some false)],
      [("database_writer", false)],
      [("data_collector", true), ("database_writer", false)],
      [("data_collector", false), ("database_writer", true)]⟩ "nope"
  have h2 := C8_thread_control_never_raises
    ⟨[("data_collector", some true), ("database_writer", some false)],
      [("database_writer", false)],
      [("data_collector", true), ("database_writer", false)],
      [("data_collector", false), ("database_writer", true)]⟩
    "data_collector"
  have h3 := C8_thread_control_never_raises
    ⟨[("data_collector", some true), ("database_writer", some false)],
      [("database_writer", false)],
      [("data_collector", true), ("database_writer", false)],
      [("data_collector", false), ("database_writer", true)]⟩
    "database_writer"
  exact ⟨h.1 (by decide),
    h2.2.1 (some true) (by decide) rfl,
    h3.2.2.1 (some false) (by decide) (Or.inr rfl),
    h2.2.2.2.1 (by decide),
    h3.2.2.2.2.1 (some false) (by decide) (by decide) (by decide),
    h2.2.2.2.2.2.1 (some true) (by decide) rfl (by decide),
    h3.2.2.2.2.2.2 (some false) (by decide) (by decide)⟩
